import Mathlib

set_option linter.unusedVariables false

/-!
Verification of the comin deployment agent core (nix/nix.go, http/http.go).

The Go code chains external processes (nix eval / show-derivation / build,
nix-env, switch-to-configuration, systemctl) and filesystem operations.
We embed it shallowly: an `Env` record supplies the outcome of every
external call, each embedded function returns its result together with the
list of side-effecting steps it actually executed (`Event` trace), and the
durable gc-root symlink state is an explicit association list from symlink
path to target.
-/

namespace Comin

/-- Result of `nix show-derivation` JSON: `{"path": ...}` (nix.go `Path`). -/
structure Path where
  path : String
deriving DecidableEq, Repr

/-- nix.go `Output`: the `out` output of a derivation. -/
structure Output where
  out : Path
deriving DecidableEq, Repr

/-- nix.go `Derivation`: the `outputs` field of a show-derivation entry. -/
structure Derivation where
  outputs : Output
deriving DecidableEq, Repr

/-- One observable side-effecting step of the pipeline. -/
inductive Event where
  | mkdirStateDir
  | evalMachineId
  | readMachineIdFile
  | showDerivationCmd
  | buildCmd (drvPath : String)
  | unitHashCmd (call : Nat)
  | setProfileCmd (outPath : String)
  | switchCmd (outPath : String) (operation : String)
  | mkdirGcRoots
  | removeGcRoot (gcRoot : String)
  | symlinkCmd (outPath : String) (gcRoot : String)
deriving DecidableEq, Repr

/-- Outcomes of the external calls made during one `Deploy` attempt.
`showDrv` is the parsed `nix show-derivation` JSON object as an association
list in the (arbitrary) order Go map iteration yields its keys; a command
failure or unmarshal failure of any call is its `.error` case.
`unitFileHash1`/`unitFileHash2` are the outcomes of the first and second
`systemctl cat comin.service` invocation, delivered as the SHA-256 hex
fingerprint of the captured output (the hashing itself is the Go
crypto/sha256 library applied to the captured bytes). -/
structure Env where
  mkdirStateDirResult : Except String Unit
  evalMachineId : Except String (Option String)
  machineIdFile : Except String String
  showDrv : Except String (List (String × Derivation))
  buildResult : Except String Unit
  unitFileHash1 : Except String String
  nixEnvResult : Except String Unit
  switchResult : Except String Unit
  unitFileHash2 : Except String String
  mkdirGcRootsResult : Except String Unit
  symlinkResult : Except String Unit

/-- The durable symlink state: association list from symlink path to target. -/
abbrev Fs := List (String × String)

/-- `os.Remove`: drop the entry at a path (errors are ignored by the code). -/
def removeLink (p : String) (fs : Fs) : Fs :=
  fs.filter (fun e => e.1 != p)

/-- `strings.TrimSuffix(s, "\n")`: drop one trailing newline if present. -/
def trimNewline (s : String) : String :=
  match s.data.getLast? with
  | some c => if c = '\n' then String.mk s.data.dropLast else s
  | none => s

/-- The error message built on a machine-id mismatch (nix.go checkMachineId):
it carries both the expected and the actual value. -/
def mismatchMsg (expected actual : String) : String :=
  "Skip deployment because the comin expected machine id '" ++ expected ++
    "' is not equal to the actual machine id '" ++ actual ++ "'"

/-- nix.go `getExpectedMachineId`: runs
`nix eval path#nixosConfigurations.hostname.config.services.comin.machineId --json`
and unmarshals into an optional string; returns `(true, id)` when set,
`(false, "")` when the option is null, and propagates eval/unmarshal errors. -/
def getExpectedMachineId (env : Env) (path hostname : String) :
    Except String (Bool × String) × List Event :=
  match env.evalMachineId with
  | .error e => (.error e, [.evalMachineId])
  | .ok none => (.ok (false, ""), [.evalMachineId])
  | .ok (some m) => (.ok (true, m), [.evalMachineId])

/-- nix.go `checkMachineId`: when the expected machine id is set, reads
`/etc/machine-id`, trims a trailing newline, and errors on read failure or
on mismatch; when unset, succeeds without reading the file. -/
def checkMachineId (env : Env) (path hostname : String) :
    Except String Unit × List Event :=
  match getExpectedMachineId env path hostname with
  | (.error e, t) => (.error e, t)
  | (.ok (false, _), t) => (.ok (), t)
  | (.ok (true, expectedMachineId), t) =>
    match env.machineIdFile with
    | .error e =>
      (.error ("Can not read file '/etc/machine-id': " ++ e),
        t ++ [.readMachineIdFile])
    | .ok contents =>
      let machineId := trimNewline contents
      if expectedMachineId ≠ machineId then
        (.error (mismatchMsg expectedMachineId machineId),
          t ++ [.readMachineIdFile])
      else
        (.ok (), t ++ [.readMachineIdFile])

/-- nix.go `showDerivation`: runs `nix show-derivation`, unmarshals the JSON
object into a map, collects the keys in iteration order, and reads
`keys[0]` — which panics (index out of range, modelled as `none`) when the
map is empty — then returns that key and its entry's out path (Go map
indexing yields the zero value when the key is absent). -/
def showDerivation (env : Env) (path hostname : String) :
    Option (Except String (String × String)) × List Event :=
  match env.showDrv with
  | .error e => (some (.error e), [.showDerivationCmd])
  | .ok output =>
    let keys := output.map Prod.fst
    match keys.get? 0 with
    | none => (none, [.showDerivationCmd])
    | some drvPath =>
      let outPath := ((output.lookup drvPath).getD ⟨⟨⟨""⟩⟩⟩).outputs.out.path
      (some (.ok (drvPath, outPath)), [.showDerivationCmd])

/-- nix.go `Build`: resolves the derivation then runs
`nix build drvPath -L --no-link`, returning the output path. -/
def Build (env : Env) (path hostname : String) :
    Option (Except String String) × List Event :=
  match showDerivation env path hostname with
  | (none, t) => (none, t)
  | (some (.error e), t) => (some (.error e), t)
  | (some (.ok (drvPath, outPath)), t) =>
    match env.buildResult with
    | .error e => (some (.error e), t ++ [.buildCmd drvPath])
    | .ok _ => (some (.ok outPath), t ++ [.buildCmd drvPath])

/-- nix.go `setSystemProfile`: runs
`nix-env --profile /nix/var/nix/profiles/system --set outPath` only when the
operation is "switch" or "boot"; under dryRun it only logs; for other
operations it does nothing and returns nil. -/
def setSystemProfile (env : Env) (operation outPath : String) (dryRun : Bool) :
    Except String Unit × List Event :=
  if operation = "switch" ∨ operation = "boot" then
    if dryRun then (.ok (), [])
    else
      match env.nixEnvResult with
      | .error e =>
        (.error ("Command 'nix-env --profile /nix/var/nix/profiles/system --set "
          ++ outPath ++ "' fails with " ++ e), [.setProfileCmd outPath])
      | .ok _ => (.ok (), [.setProfileCmd outPath])
  else (.ok (), [])

/-- nix.go `switchToConfiguration`: invokes
`outPath/bin/switch-to-configuration operation`; under dryRun it only logs. -/
def switchToConfiguration (env : Env) (operation outPath : String) (dryRun : Bool) :
    Except String Unit × List Event :=
  if dryRun then (.ok (), [])
  else
    match env.switchResult with
    | .error e =>
      (.error ("Command " ++ outPath ++ "/bin/switch-to-configuration switch fails with "
        ++ e), [.switchCmd outPath operation])
    | .ok _ => (.ok (), [.switchCmd outPath operation])

/-- nix.go `cominUnitFileHash`: runs `systemctl cat comin.service` and
returns the SHA-256 hex fingerprint of the captured output; `call`
distinguishes the two invocations of one Deploy run in the trace. -/
def cominUnitFileHash (call : Nat) (r : Except String String) :
    Except String String × List Event :=
  match r with
  | .error e =>
    (.error ("Command 'systemctl cat comin.service' fails with " ++ e),
      [.unitHashCmd call])
  | .ok h => (.ok h, [.unitHashCmd call])

/-- The gc-root symlink path for a host (nix.go createGcRoot):
stateDir/gcroots/switch-to-configuration-hostname. -/
def gcRootPath (stateDir hostname : String) : String :=
  stateDir ++ "/gcroots/switch-to-configuration-" ++ hostname

/-- nix.go `createGcRoot`: under dryRun only logs; otherwise creates the
gcroots directory, removes any prior symlink (os.Remove, error ignored) and
symlinks the gc root to the output path. -/
def createGcRoot (env : Env) (stateDir hostname outPath : String) (dryRun : Bool)
    (fs : Fs) : Except String Unit × Fs × List Event :=
  let gcRoot := gcRootPath stateDir hostname
  if dryRun then (.ok (), fs, [])
  else
    match env.mkdirGcRootsResult with
    | .error e => (.error e, fs, [.mkdirGcRoots])
    | .ok _ =>
      let fs1 := removeLink gcRoot fs
      match env.symlinkResult with
      | .error e =>
        (.error ("Failed to create symlink 'ln -s " ++ outPath ++ " " ++ gcRoot
          ++ "': " ++ e), fs1, [.mkdirGcRoots, .removeGcRoot gcRoot])
      | .ok _ =>
        (.ok (), (gcRoot, outPath) :: fs1,
          [.mkdirGcRoots, .removeGcRoot gcRoot, .symlinkCmd outPath gcRoot])

/-- nix.go `Deploy`: mkdir state dir, machine-id safety check, build,
fingerprint, set system profile, switch-to-configuration, fingerprint,
compare fingerprints, record gc root. Returns `none` when the run panics
(empty show-derivation map), otherwise the (needToRestartComin, error)
result; also returns the final symlink state and the executed steps. -/
def Deploy (env : Env) (hostname stateDir path operation : String) (dryRun : Bool)
    (fs : Fs) : Option (Except String Bool) × Fs × List Event :=
  match env.mkdirStateDirResult with
  | .error e => (some (.error e), fs, [.mkdirStateDir])
  | .ok _ =>
  match checkMachineId env path hostname with
  | (.error e, t1) => (some (.error e), fs, .mkdirStateDir :: t1)
  | (.ok _, t1) =>
  match Build env path hostname with
  | (none, t2) => (none, fs, .mkdirStateDir :: (t1 ++ t2))
  | (some (.error e), t2) => (some (.error e), fs, .mkdirStateDir :: (t1 ++ t2))
  | (some (.ok outPath), t2) =>
  match cominUnitFileHash 1 env.unitFileHash1 with
  | (.error e, t3) =>
    (some (.error e), fs, .mkdirStateDir :: (t1 ++ t2 ++ t3))
  | (.ok beforeCominUnitFileHash, t3) =>
  match setSystemProfile env operation outPath dryRun with
  | (.error e, t4) =>
    (some (.error e), fs, .mkdirStateDir :: (t1 ++ t2 ++ t3 ++ t4))
  | (.ok _, t4) =>
  match switchToConfiguration env operation outPath dryRun with
  | (.error e, t5) =>
    (some (.error e), fs, .mkdirStateDir :: (t1 ++ t2 ++ t3 ++ t4 ++ t5))
  | (.ok _, t5) =>
  match cominUnitFileHash 2 env.unitFileHash2 with
  | (.error e, t6) =>
    (some (.error e), fs, .mkdirStateDir :: (t1 ++ t2 ++ t3 ++ t4 ++ t5 ++ t6))
  | (.ok afterCominUnitFileHash, t6) =>
  let needToRestartComin := beforeCominUnitFileHash != afterCominUnitFileHash
  match createGcRoot env stateDir hostname outPath dryRun fs with
  | (.error e, fs2, t7) =>
    (some (.error e), fs2,
      .mkdirStateDir :: (t1 ++ t2 ++ t3 ++ t4 ++ t5 ++ t6 ++ t7))
  | (.ok _, fs2, t7) =>
    (some (.ok needToRestartComin), fs2,
      .mkdirStateDir :: (t1 ++ t2 ++ t3 ++ t4 ++ t5 ++ t6 ++ t7))

/-- A build step: the show-derivation resolution or the `nix build` command
(both happen inside nix.go `Build`). -/
def Event.isBuildStep : Event → Bool
  | .showDerivationCmd => true
  | .buildCmd _ => true
  | _ => false

/-- An activation step: the `nix-env --profile --set` command of
`setSystemProfile` or the `switch-to-configuration` invocation. -/
def Event.isActivationStep : Event → Bool
  | .setProfileCmd _ => true
  | .switchCmd _ _ => true
  | _ => false

/-- A gc-root write: the mkdir/remove/symlink of `createGcRoot`. -/
def Event.isGcRootStep : Event → Bool
  | .mkdirGcRoots => true
  | .removeGcRoot _ => true
  | .symlinkCmd _ _ => true
  | _ => false

/-- http.go `handler` for POST /deploy: when a webhook secret is configured,
a missing or non-matching X-Gitlab-Token header answers 401 without calling
the worker; otherwise `w.Beat` is called and its acceptance decides between
200 and 409. Returns (HTTP status, whether Beat was called); `headerToken`
is `r.Header.Get("X-Gitlab-Token")`, which yields "" for a missing header. -/
def handler (cfgSecret headerToken : String) (beat : Bool) : Nat × Bool :=
  if cfgSecret ≠ "" ∧ headerToken = "" then (401, false)
  else if cfgSecret ≠ "" ∧ headerToken ≠ cfgSecret then (401, false)
  else if beat then (200, true)
  else (409, true)

/-- http.go `handlerStatus` for GET /status: writes 200 and the marshalled
state snapshot (the marshal error is discarded by the code). -/
def handlerStatus {σ : Type} (get : Unit → σ) (marshal : σ → String) :
    Nat × String :=
  (200, marshal (get ()))

/-- Modelled from the spec: the single-flight trigger gate (`worker.Beat`,
whose worker package is not part of the provided sources). A process-wide
busy flag, atomically test-and-set on trigger; an already-set flag drops the
request (returns false, nothing queued); the flag is cleared unconditionally
when the orchestrator run completes, whether it succeeded or failed. -/
structure TriggerGate where
  busy : Bool
deriving DecidableEq, Repr

/-- Modelled from the spec: `trigger()` returns whether the request was
accepted, together with the new gate state. -/
def TriggerGate.trigger (g : TriggerGate) : Bool × TriggerGate :=
  if g.busy then (false, g) else (true, { busy := true })

/-- Modelled from the spec: run completion (success or failure) clears the
busy flag unconditionally. -/
def TriggerGate.complete (g : TriggerGate) : TriggerGate :=
  { busy := false }

/-- A fully successful environment used for concrete evaluation. -/
def envOk : Env where
  mkdirStateDirResult := .ok ()
  evalMachineId := .ok none
  machineIdFile := .ok "mid\n"
  showDrv := .ok [("/nix/store/a.drv", ⟨⟨⟨"/nix/store/a-out"⟩⟩⟩)]
  buildResult := .ok ()
  unitFileHash1 := .ok "h1"
  nixEnvResult := .ok ()
  switchResult := .ok ()
  unitFileHash2 := .ok "h1"
  mkdirGcRootsResult := .ok ()
  symlinkResult := .ok ()

/-- Environment whose show-derivation query parses to an empty JSON object. -/
def envEmptyDrv : Env := { envOk with showDrv := .ok [] }

/-- Environment where the machine-identity option is set. -/
def envIdSet : Env := { envOk with evalMachineId := .ok (some "mid") }

/-- Derivation entry used in the map-order example. -/
def drvA : Derivation := ⟨⟨⟨"/nix/store/out-a"⟩⟩⟩

/-- Second derivation entry used in the map-order example. -/
def drvB : Derivation := ⟨⟨⟨"/nix/store/out-b"⟩⟩⟩

/-- The same two-entry show-derivation map, iterated in one order... -/
def envOrder1 : Env :=
  { envOk with showDrv := .ok [("/nix/store/a.drv", drvA), ("/nix/store/b.drv", drvB)] }

/-- ...and in the other order. -/
def envOrder2 : Env :=
  { envOk with showDrv := .ok [("/nix/store/b.drv", drvB), ("/nix/store/a.drv", drvA)] }

/-- C7: for every operation, output path and dryRun value, `setSystemProfile`
executes the profile-setting command if and only if the operation is
"switch" or "boot" and dryRun is false; for any other operation it performs
no mutation and returns nil regardless of dryRun; with dryRun true it only
logs and returns nil. -/
theorem setSystemProfile_executes_iff (env : Env) (operation outPath : String)
    (dryRun : Bool) :
    (Event.setProfileCmd outPath ∈ (setSystemProfile env operation outPath dryRun).2 ↔
      (operation = "switch" ∨ operation = "boot") ∧ dryRun = false) ∧
    (¬(operation = "switch" ∨ operation = "boot") →
      setSystemProfile env operation outPath dryRun = (.ok (), [])) ∧
    (dryRun = true → setSystemProfile env operation outPath dryRun = (.ok (), [])) := by
  unfold setSystemProfile
  by_cases hop : operation = "switch" ∨ operation = "boot" <;>
    cases dryRun <;> cases henv : env.nixEnvResult <;> simp [hop]

/-- Witness for C7 at concrete inputs. -/
theorem setSystemProfile_executes_iff_witness :
    setSystemProfile envOk "test" "/out" false = (.ok (), []) ∧
    setSystemProfile envOk "switch" "/out" true = (.ok (), []) ∧
    Event.setProfileCmd "/out" ∈ (setSystemProfile envOk "switch" "/out" false).2 :=
  ⟨(setSystemProfile_executes_iff envOk "test" "/out" false).2.1 (by decide),
   (setSystemProfile_executes_iff envOk "switch" "/out" true).2.2 rfl,
   (setSystemProfile_executes_iff envOk "switch" "/out" false).1.mpr
     ⟨Or.inl rfl, rfl⟩⟩

/-- C10: on an empty show-derivation JSON object the code reads `keys[0]`
without a length check: `showDerivation`, and therefore `Build` and
`Deploy`, end in an index-out-of-range panic (modelled `none`) instead of
returning an error value. -/
theorem showDerivation_empty_map_panics :
    (showDerivation envEmptyDrv "." "web1").1 = none ∧
    (Build envEmptyDrv "." "web1").1 = none ∧
    (Deploy envEmptyDrv "web1" "/var/lib/comin" "." "switch" false []).1 = none :=
  ⟨rfl, rfl, rfl⟩

/-- C2 counterexample: the derivation selection is Go-map-iteration-order
dependent and ignores the requested host. The same two-entry query result,
iterated in two different orders, yields two different (drvPath, outPath)
pairs, so the selection is not deterministic. -/
theorem showDerivation_order_dependent :
    (∃ l1 l2, envOrder1.showDrv = .ok l1 ∧ envOrder2.showDrv = .ok l2 ∧
      List.Perm l1 l2) ∧
    (showDerivation envOrder1 "." "web1").1 =
      some (.ok ("/nix/store/a.drv", "/nix/store/out-a")) ∧
    (showDerivation envOrder2 "." "web1").1 =
      some (.ok ("/nix/store/b.drv", "/nix/store/out-b")) ∧
    ("/nix/store/a.drv", "/nix/store/out-a") ≠
      ("/nix/store/b.drv", "/nix/store/out-b") :=
  ⟨⟨_, _, rfl, rfl, List.Perm.swap _ _ _⟩, rfl, rfl, by decide⟩

/-- C9: with a configured secret, a missing or non-matching X-Gitlab-Token
header yields 401 and the worker is never called; otherwise the response is
200 exactly when the trigger is accepted and 409 exactly when a deployment
is already running; and /status always yields 200 with the marshalled
status snapshot. -/
theorem handler_status_codes (cfgSecret headerToken : String) (beat : Bool) :
    (cfgSecret ≠ "" → (headerToken = "" ∨ headerToken ≠ cfgSecret) →
      handler cfgSecret headerToken beat = (401, false)) ∧
    ((cfgSecret = "" ∨ headerToken = cfgSecret) →
      handler cfgSecret headerToken beat = ((if beat then 200 else 409), true)) ∧
    (∀ (σ : Type) (get : Unit → σ) (marshal : σ → String),
      handlerStatus get marshal = (200, marshal (get ()))) := by
  refine ⟨?_, ?_, fun σ get marshal => rfl⟩
  · rintro hs (hm | hm) <;> simp [handler, hs, hm]
  · rintro (hs | hs) <;> cases beat <;> simp [handler, hs]

/-- Witness for C9 at concrete inputs. -/
theorem handler_status_codes_witness :
    handler "s3cret" "" true = (401, false) ∧
    handler "s3cret" "wrong" true = (401, false) ∧
    handler "s3cret" "s3cret" true = (200, true) ∧
    handler "" "" false = (409, true) :=
  ⟨(handler_status_codes "s3cret" "" true).1 (by decide) (Or.inl rfl),
   (handler_status_codes "s3cret" "wrong" true).1 (by decide) (Or.inr (by decide)),
   ((handler_status_codes "s3cret" "s3cret" true).2.1 (Or.inr rfl)).trans (by decide),
   ((handler_status_codes "" "" false).2.1 (Or.inl rfl)).trans (by decide)⟩

/-- C8: the gate admits at most one run at a time: a trigger is accepted
only from the idle state; from idle, the first trigger returns true, a
second trigger issued while the run is in progress returns false and leaves
the gate state unchanged (dropped, not queued), and after completion —
success or failure alike, completion clears the flag unconditionally — a
subsequent trigger returns true again. -/
theorem trigger_gate_single_flight :
    (∀ g : TriggerGate, g.busy = true → (TriggerGate.trigger g).1 = false) ∧
    (TriggerGate.trigger ⟨false⟩).1 = true ∧
    (TriggerGate.trigger (TriggerGate.trigger ⟨false⟩).2).1 = false ∧
    (TriggerGate.trigger (TriggerGate.trigger ⟨false⟩).2).2 =
      (TriggerGate.trigger ⟨false⟩).2 ∧
    (TriggerGate.trigger
      (TriggerGate.complete (TriggerGate.trigger ⟨false⟩).2)).1 = true := by
  refine ⟨?_, rfl, rfl, rfl, rfl⟩
  rintro ⟨b⟩ hb
  simp at hb
  simp [TriggerGate.trigger, hb]

/-- Witness for C8's universally quantified conjunct at a concrete gate. -/
theorem trigger_gate_single_flight_witness :
    (TriggerGate.trigger ⟨true⟩).1 = false :=
  trigger_gate_single_flight.1 ⟨true⟩ rfl

/-- C6: a null machine-identity option resolves to absent with no error and
the identity check succeeds without reading the local identity file; a set
option makes the check succeed exactly when the expected value equals the
(newline-trimmed) contents of the identity file, a read failure is a hard
error, and a mismatch error carries both the expected and actual value. -/
theorem checkMachineId_spec (env : Env) (path hostname : String) :
    (env.evalMachineId = Except.ok none →
      getExpectedMachineId env path hostname = (.ok (false, ""), [.evalMachineId]) ∧
      checkMachineId env path hostname = (.ok (), [.evalMachineId])) ∧
    (∀ expected, env.evalMachineId = Except.ok (some expected) →
      ((checkMachineId env path hostname).1 = .ok () ↔
        ∃ c, env.machineIdFile = .ok c ∧ expected = trimNewline c) ∧
      (∀ e, env.machineIdFile = Except.error e →
        (checkMachineId env path hostname).1 =
          .error ("Can not read file '/etc/machine-id': " ++ e)) ∧
      (∀ c, env.machineIdFile = Except.ok c → expected ≠ trimNewline c →
        (checkMachineId env path hostname).1 =
          .error (mismatchMsg expected (trimNewline c)))) := by
  constructor
  · intro h
    constructor <;> simp [checkMachineId, getExpectedMachineId, h]
  · intro expected hev
    refine ⟨?_, ?_, ?_⟩
    · cases hmf : env.machineIdFile with
      | error e => simp [checkMachineId, getExpectedMachineId, hev, hmf]
      | ok c =>
        by_cases hx : expected = trimNewline c <;>
          simp [checkMachineId, getExpectedMachineId, hev, hmf, hx]
    · intro e hmf
      simp [checkMachineId, getExpectedMachineId, hev, hmf]
    · intro c hmf hx
      simp [checkMachineId, getExpectedMachineId, hev, hmf, hx]

/-- Witness for C6 at concrete inputs: unset option, matching id, read
failure, and mismatch. -/
theorem checkMachineId_spec_witness :
    checkMachineId envOk "." "web1" = (.ok (), [.evalMachineId]) ∧
    (checkMachineId envIdSet "." "web1").1 = .ok () ∧
    (checkMachineId { envIdSet with machineIdFile := .error "denied" } "." "web1").1 =
      .error ("Can not read file '/etc/machine-id': " ++ "denied") ∧
    (checkMachineId { envIdSet with evalMachineId := .ok (some "other") } "." "web1").1 =
      .error (mismatchMsg "other" "mid") :=
  ⟨((checkMachineId_spec envOk "." "web1").1 rfl).2,
   ((checkMachineId_spec envIdSet "." "web1").2 "mid" rfl).1.mpr
     ⟨"mid\n", rfl, by decide⟩,
   ((checkMachineId_spec { envIdSet with machineIdFile := .error "denied" }
      "." "web1").2 "mid" rfl).2.1 "denied" rfl,
   (((checkMachineId_spec { envIdSet with evalMachineId := .ok (some "other") }
      "." "web1").2 "other" rfl).2.2 "mid\n" rfl (by decide)).trans
     (congrArg Except.error (by decide))⟩

/-- The identity check executes only the eval step and possibly the
identity-file read. -/
theorem checkMachineId_trace (env : Env) (path hostname : String) :
    (checkMachineId env path hostname).2 = [.evalMachineId] ∨
    (checkMachineId env path hostname).2 = [.evalMachineId, .readMachineIdFile] := by
  unfold checkMachineId getExpectedMachineId
  cases env.evalMachineId with
  | error e => simp
  | ok mo =>
    cases mo with
    | none => simp
    | some m =>
      cases env.machineIdFile with
      | error e => simp
      | ok c => by_cases hx : m ≠ trimNewline c <;> simp [hx]

/-- Build executes only the show-derivation query and possibly the nix
build command. -/
theorem Build_trace (env : Env) (path hostname : String) :
    (Build env path hostname).2 = [.showDerivationCmd] ∨
    ∃ d, (Build env path hostname).2 = [.showDerivationCmd, .buildCmd d] := by
  unfold Build showDerivation
  cases env.showDrv with
  | error e => simp
  | ok output =>
    cases output with
    | nil => simp
    | cons kd rest => cases env.buildResult <;> simp

/-- C1: whenever the machine-identity safety check fails — failed
evaluation, unreadable identity file, or identity mismatch — Deploy returns
an error and the run executes no build step (show-derivation / nix build)
and no activation step (nix-env profile set / switch-to-configuration). -/
theorem deploy_safety_failure_blocks_pipeline
    (env : Env) (hostname stateDir path operation : String) (dryRun : Bool) (fs : Fs)
    (hfail : (∃ e, env.evalMachineId = Except.error e) ∨
      (∃ x e, env.evalMachineId = Except.ok (some x) ∧
        env.machineIdFile = Except.error e) ∨
      (∃ x c, env.evalMachineId = Except.ok (some x) ∧
        env.machineIdFile = Except.ok c ∧ x ≠ trimNewline c)) :
    (∃ e, (Deploy env hostname stateDir path operation dryRun fs).1 =
      some (Except.error e)) ∧
    (Deploy env hostname stateDir path operation dryRun fs).2.2.all
      (fun ev => !ev.isBuildStep && !ev.isActivationStep) = true := by
  have hcheck : ∃ e, (checkMachineId env path hostname).1 = Except.error e := by
    rcases hfail with ⟨e, h⟩ | ⟨x, e, h1, h2⟩ | ⟨x, c, h1, h2, h3⟩
    · exact ⟨e, by simp [checkMachineId, getExpectedMachineId, h]⟩
    · exact ⟨"Can not read file '/etc/machine-id': " ++ e,
        by simp [checkMachineId, getExpectedMachineId, h1, h2]⟩
    · exact ⟨mismatchMsg x (trimNewline c),
        by simp [checkMachineId, getExpectedMachineId, h1, h2, h3]⟩
  obtain ⟨e, he⟩ := hcheck
  have ht := checkMachineId_trace env path hostname
  rcases hc : checkMachineId env path hostname with ⟨r1, t1⟩
  rw [hc] at he ht
  simp only at he ht
  subst he
  cases hmk : env.mkdirStateDirResult with
  | error e2 =>
    refine ⟨⟨e2, ?_⟩, ?_⟩ <;>
      simp [Deploy, hmk, Event.isBuildStep, Event.isActivationStep]
  | ok u =>
    refine ⟨⟨e, ?_⟩, ?_⟩ <;>
      rcases ht with ht | ht <;>
        simp [Deploy, hmk, hc, ht, Event.isBuildStep, Event.isActivationStep]

/-- Witness for C1: a mismatching expected identity makes Deploy fail
without running any build or activation step. -/
theorem deploy_safety_failure_blocks_pipeline_witness :
    (∃ e, (Deploy { envIdSet with evalMachineId := .ok (some "other") }
      "web1" "/var/lib/comin" "." "switch" false []).1 = some (Except.error e)) ∧
    (Deploy { envIdSet with evalMachineId := .ok (some "other") }
      "web1" "/var/lib/comin" "." "switch" false []).2.2.all
      (fun ev => !ev.isBuildStep && !ev.isActivationStep) = true :=
  deploy_safety_failure_blocks_pipeline _ "web1" "/var/lib/comin" "." "switch"
    false [] (Or.inr (Or.inr ⟨"other", "mid\n", rfl, rfl, by decide⟩))

/-- Under dryRun the profile-setting step only logs. -/
theorem setSystemProfile_dryRun (env : Env) (operation outPath : String) :
    setSystemProfile env operation outPath true = (.ok (), []) := by
  unfold setSystemProfile
  split <;> rfl

/-- Under dryRun the activation entry point is not invoked. -/
theorem switchToConfiguration_dryRun (env : Env) (operation outPath : String) :
    switchToConfiguration env operation outPath true = (.ok (), []) := rfl

/-- Under dryRun the gc-root state is untouched. -/
theorem createGcRoot_dryRun (env : Env) (stateDir hostname outPath : String)
    (fs : Fs) :
    createGcRoot env stateDir hostname outPath true fs = (.ok (), fs, []) := rfl

/-- C4: a dryRun Deploy never executes the profile-setting command or the
switch-to-configuration entry point, leaves the gc-root symlink state
unchanged, and — absent unrelated failures (state dir creation, safety
check, build, fingerprinting) — still returns a success result. -/
theorem deploy_dry_run_frame (env : Env)
    (hostname stateDir path operation : String) (fs : Fs) :
    (Deploy env hostname stateDir path operation true fs).2.2.all
      (fun ev => !ev.isActivationStep && !ev.isGcRootStep) = true ∧
    (Deploy env hostname stateDir path operation true fs).2.1 = fs ∧
    (env.mkdirStateDirResult = .ok () →
      (checkMachineId env path hostname).1 = .ok () →
      (∃ o, (Build env path hostname).1 = some (.ok o)) →
      (∃ h1, env.unitFileHash1 = .ok h1) →
      (∃ h2, env.unitFileHash2 = .ok h2) →
      ∃ b, (Deploy env hostname stateDir path operation true fs).1 =
        some (.ok b)) := by
  cases hmk : env.mkdirStateDirResult with
  | error e =>
    refine ⟨?_, ?_, ?_⟩ <;>
      simp [Deploy, hmk, Event.isActivationStep, Event.isGcRootStep]
  | ok u =>
    have ht1 := checkMachineId_trace env path hostname
    have ht2 := Build_trace env path hostname
    rcases hc : checkMachineId env path hostname with ⟨r1, t1⟩
    simp only [hc] at ht1
    cases r1 with
    | error e =>
      refine ⟨?_, ?_, ?_⟩
      · rcases ht1 with h | h <;>
          simp [Deploy, hmk, hc, h, Event.isActivationStep, Event.isGcRootStep]
      · simp [Deploy, hmk, hc]
      · intro _ hcok
        simp at hcok
    | ok u1 =>
      rcases hb : Build env path hostname with ⟨r2, t2⟩
      simp only [hb] at ht2
      match r2 with
      | none =>
        refine ⟨?_, ?_, ?_⟩
        · rcases ht1 with h | h <;> rcases ht2 with h2 | ⟨d, h2⟩ <;>
            simp [Deploy, hmk, hc, hb, h, h2, Event.isActivationStep,
              Event.isGcRootStep]
        · simp [Deploy, hmk, hc, hb]
        · intro _ _ hbok
          simp at hbok
      | some (.error e) =>
        refine ⟨?_, ?_, ?_⟩
        · rcases ht1 with h | h <;> rcases ht2 with h2 | ⟨d, h2⟩ <;>
            simp [Deploy, hmk, hc, hb, h, h2, Event.isActivationStep,
              Event.isGcRootStep]
        · simp [Deploy, hmk, hc, hb]
        · intro _ _ hbok
          simp at hbok
      | some (.ok outPath) =>
        cases hh1 : env.unitFileHash1 with
        | error e =>
          refine ⟨?_, ?_, ?_⟩
          · rcases ht1 with h | h <;> rcases ht2 with h2 | ⟨d, h2⟩ <;>
              simp [Deploy, hmk, hc, hb, hh1, cominUnitFileHash, h, h2,
                Event.isActivationStep, Event.isGcRootStep]
          · simp [Deploy, hmk, hc, hb, hh1, cominUnitFileHash]
          · intro _ _ _ hh
            simp at hh
        | ok h1 =>
          cases hh2 : env.unitFileHash2 with
          | error e =>
            refine ⟨?_, ?_, ?_⟩
            · rcases ht1 with h | h <;> rcases ht2 with h2 | ⟨d, h2⟩ <;>
                simp [Deploy, hmk, hc, hb, hh1, hh2, cominUnitFileHash,
                  setSystemProfile_dryRun, switchToConfiguration_dryRun, h, h2,
                  Event.isActivationStep, Event.isGcRootStep]
            · simp [Deploy, hmk, hc, hb, hh1, hh2, cominUnitFileHash,
                setSystemProfile_dryRun, switchToConfiguration_dryRun]
            · intro _ _ _ _ hh
              simp at hh
          | ok h2 =>
            refine ⟨?_, ?_, ?_⟩
            · rcases ht1 with h | h <;> rcases ht2 with ht2c | ⟨d, ht2c⟩ <;>
                simp [Deploy, hmk, hc, hb, hh1, hh2, cominUnitFileHash,
                  setSystemProfile_dryRun, switchToConfiguration_dryRun,
                  createGcRoot_dryRun, h, ht2c, Event.isActivationStep,
                  Event.isGcRootStep]
            · simp [Deploy, hmk, hc, hb, hh1, hh2, cominUnitFileHash,
                setSystemProfile_dryRun, switchToConfiguration_dryRun,
                createGcRoot_dryRun]
            · intro _ _ _ _ _
              exact ⟨h1 != h2,
                by simp [Deploy, hmk, hc, hb, hh1, hh2, cominUnitFileHash,
                  setSystemProfile_dryRun, switchToConfiguration_dryRun,
                  createGcRoot_dryRun]⟩

/-- Witness for C4: a dryRun run of the all-success environment returns a
success result. -/
theorem deploy_dry_run_frame_witness :
    ∃ b, (Deploy envOk "web1" "/var/lib/comin" "." "switch" true []).1 =
      some (.ok b) :=
  (deploy_dry_run_frame envOk "web1" "/var/lib/comin" "." "switch" []).2.2 rfl
    rfl ⟨"/nix/store/a-out", rfl⟩ ⟨"h1", rfl⟩ ⟨"h1", rfl⟩

/-- A non-dry profile set for a switch/boot operation executes exactly the
profile-setting command. -/
theorem setSystemProfile_run (env : Env) (operation outPath : String)
    (hop : operation = "switch" ∨ operation = "boot") :
    (setSystemProfile env operation outPath false).2 = [.setProfileCmd outPath] := by
  unfold setSystemProfile
  cases env.nixEnvResult <;> simp [hop]

/-- A non-dry activation executes exactly the switch-to-configuration
invocation. -/
theorem switchToConfiguration_run (env : Env) (operation outPath : String) :
    (switchToConfiguration env operation outPath false).2 =
      [.switchCmd outPath operation] := by
  unfold switchToConfiguration
  cases env.switchResult <;> simp

/-- A successful non-dry gc-root record replaces the host's symlink with
the output path, in mkdir/remove/symlink order. -/
theorem createGcRoot_ok_shape (env : Env) (stateDir hostname outPath : String)
    (fs fs2 : Fs) (u : Unit) (tg : List Event)
    (hg : createGcRoot env stateDir hostname outPath false fs = (.ok u, fs2, tg)) :
    fs2 = (gcRootPath stateDir hostname, outPath) ::
      removeLink (gcRootPath stateDir hostname) fs ∧
    tg = [.mkdirGcRoots, .removeGcRoot (gcRootPath stateDir hostname),
      .symlinkCmd outPath (gcRootPath stateDir hostname)] := by
  unfold createGcRoot at hg
  cases hm : env.mkdirGcRootsResult with
  | error e =>
    rw [hm] at hg
    simp at hg
  | ok um =>
    rw [hm] at hg
    cases hs : env.symlinkResult with
    | error e =>
      rw [hs] at hg
      simp at hg
    | ok us =>
      rw [hs] at hg
      simp at hg
      exact ⟨hg.1.symm, hg.2.symm⟩

/-- C5: in every successful Deploy run the returned needToRestartComin is
true if and only if the two unit-file SHA-256 fingerprints differ, and (for
a real switch/boot run) the first fingerprint is taken immediately before
the profile-setting command and the second immediately after the
switch-to-configuration invocation. -/
theorem deploy_restart_flag (env : Env) (hostname stateDir path operation : String)
    (dryRun : Bool) (fs : Fs) :
    (∀ b, (Deploy env hostname stateDir path operation dryRun fs).1 =
        some (.ok b) →
      ∃ hb ha, env.unitFileHash1 = .ok hb ∧ env.unitFileHash2 = .ok ha ∧
        (b = true ↔ hb ≠ ha)) ∧
    (dryRun = false → (operation = "switch" ∨ operation = "boot") →
      ∀ b, (Deploy env hostname stateDir path operation dryRun fs).1 =
        some (.ok b) →
      ∃ t0 o g, (Deploy env hostname stateDir path operation dryRun fs).2.2 =
        t0 ++ [.unitHashCmd 1, .setProfileCmd o, .switchCmd o operation,
          .unitHashCmd 2, .mkdirGcRoots, .removeGcRoot g, .symlinkCmd o g]) := by
  constructor
  · intro b hDb
    cases hmk : env.mkdirStateDirResult with
    | error e => simp [Deploy, hmk] at hDb
    | ok u =>
      rcases hc : checkMachineId env path hostname with ⟨r1, t1⟩
      cases r1 with
      | error e => simp [Deploy, hmk, hc] at hDb
      | ok u1 =>
        rcases hBu : Build env path hostname with ⟨r2, t2⟩
        match r2 with
        | none => simp [Deploy, hmk, hc, hBu] at hDb
        | some (.error e) => simp [Deploy, hmk, hc, hBu] at hDb
        | some (.ok outPath) =>
          cases hh1 : env.unitFileHash1 with
          | error e => simp [Deploy, hmk, hc, hBu, hh1, cominUnitFileHash] at hDb
          | ok hb =>
            rcases hsp : setSystemProfile env operation outPath dryRun with ⟨rs, ts⟩
            cases rs with
            | error e => simp [Deploy, hmk, hc, hBu, hh1, cominUnitFileHash, hsp] at hDb
            | ok u2 =>
              rcases hsw : switchToConfiguration env operation outPath dryRun with
                ⟨rw2, tw⟩
              cases rw2 with
              | error e =>
                simp [Deploy, hmk, hc, hBu, hh1, cominUnitFileHash, hsp, hsw] at hDb
              | ok u3 =>
                cases hh2 : env.unitFileHash2 with
                | error e =>
                  simp [Deploy, hmk, hc, hBu, hh1, hh2, cominUnitFileHash, hsp,
                    hsw] at hDb
                | ok ha =>
                  rcases hg : createGcRoot env stateDir hostname outPath dryRun fs
                    with ⟨rg, fsg, tg⟩
                  cases rg with
                  | error e =>
                    simp [Deploy, hmk, hc, hBu, hh1, hh2, cominUnitFileHash, hsp,
                      hsw, hg] at hDb
                  | ok u4 =>
                    refine ⟨hb, ha, rfl, rfl, ?_⟩
                    simp [Deploy, hmk, hc, hBu, hh1, hh2, cominUnitFileHash, hsp,
                      hsw, hg] at hDb
                    subst hDb
                    simp [bne_iff_ne]
  · intro hd hop b hDb
    subst hd
    cases hmk : env.mkdirStateDirResult with
    | error e => simp [Deploy, hmk] at hDb
    | ok u =>
      rcases hc : checkMachineId env path hostname with ⟨r1, t1⟩
      cases r1 with
      | error e => simp [Deploy, hmk, hc] at hDb
      | ok u1 =>
        rcases hBu : Build env path hostname with ⟨r2, t2⟩
        match r2 with
        | none => simp [Deploy, hmk, hc, hBu] at hDb
        | some (.error e) => simp [Deploy, hmk, hc, hBu] at hDb
        | some (.ok outPath) =>
          cases hh1 : env.unitFileHash1 with
          | error e => simp [Deploy, hmk, hc, hBu, hh1, cominUnitFileHash] at hDb
          | ok hb =>
            rcases hsp : setSystemProfile env operation outPath false with ⟨rs, ts⟩
            have hts : ts = [.setProfileCmd outPath] := by
              rw [← setSystemProfile_run env operation outPath hop, hsp]
            cases rs with
            | error e => simp [Deploy, hmk, hc, hBu, hh1, cominUnitFileHash, hsp] at hDb
            | ok u2 =>
              rcases hsw : switchToConfiguration env operation outPath false with
                ⟨rw2, tw⟩
              have htw : tw = [.switchCmd outPath operation] := by
                rw [← switchToConfiguration_run env operation outPath, hsw]
              cases rw2 with
              | error e =>
                simp [Deploy, hmk, hc, hBu, hh1, cominUnitFileHash, hsp, hsw] at hDb
              | ok u3 =>
                cases hh2 : env.unitFileHash2 with
                | error e =>
                  simp [Deploy, hmk, hc, hBu, hh1, hh2, cominUnitFileHash, hsp,
                    hsw] at hDb
                | ok ha =>
                  rcases hg : createGcRoot env stateDir hostname outPath false fs
                    with ⟨rg, fsg, tg⟩
                  cases rg with
                  | error e =>
                    simp [Deploy, hmk, hc, hBu, hh1, hh2, cominUnitFileHash, hsp,
                      hsw, hg] at hDb
                  | ok u4 =>
                    obtain ⟨-, htg⟩ := createGcRoot_ok_shape env stateDir hostname
                      outPath fs fsg u4 tg hg
                    refine ⟨.mkdirStateDir :: (t1 ++ t2), outPath,
                      gcRootPath stateDir hostname, ?_⟩
                    simp [Deploy, hmk, hc, hBu, hh1, hh2, cominUnitFileHash, hsp,
                      hsw, hg, hts, htw, htg]

/-- Environment whose two unit-file fingerprints differ. -/
def envRestart : Env := { envOk with unitFileHash2 := .ok "h2" }

/-- Witness for C5: differing fingerprints yield true, equal ones false,
and the successful switch run interleaves the fingerprints around the
activation steps. -/
theorem deploy_restart_flag_witness :
    (∃ hb ha, envRestart.unitFileHash1 = .ok hb ∧ envRestart.unitFileHash2 = .ok ha ∧
      (true = true ↔ hb ≠ ha)) ∧
    (∃ hb ha, envOk.unitFileHash1 = .ok hb ∧ envOk.unitFileHash2 = .ok ha ∧
      (false = true ↔ hb ≠ ha)) ∧
    (∃ t0 o g, (Deploy envRestart "web1" "/var/lib/comin" "." "switch" false []).2.2 =
      t0 ++ [.unitHashCmd 1, .setProfileCmd o, .switchCmd o "switch",
        .unitHashCmd 2, .mkdirGcRoots, .removeGcRoot g, .symlinkCmd o g]) :=
  ⟨(deploy_restart_flag envRestart "web1" "/var/lib/comin" "." "switch" false
      []).1 true rfl,
   (deploy_restart_flag envOk "web1" "/var/lib/comin" "." "switch" false
      []).1 false rfl,
   (deploy_restart_flag envRestart "web1" "/var/lib/comin" "." "switch" false
      []).2 rfl (Or.inl rfl) true rfl⟩

/-- The profile-setting step emits at most its own command. -/
theorem setSystemProfile_trace (env : Env) (operation outPath : String)
    (dryRun : Bool) :
    (setSystemProfile env operation outPath dryRun).2 = [] ∨
    (setSystemProfile env operation outPath dryRun).2 = [.setProfileCmd outPath] := by
  unfold setSystemProfile
  by_cases hop : operation = "switch" ∨ operation = "boot" <;>
    cases dryRun <;> cases env.nixEnvResult <;> simp [hop]

/-- The activation step emits at most its own invocation. -/
theorem switchToConfiguration_trace (env : Env) (operation outPath : String)
    (dryRun : Bool) :
    (switchToConfiguration env operation outPath dryRun).2 = [] ∨
    (switchToConfiguration env operation outPath dryRun).2 =
      [.switchCmd outPath operation] := by
  unfold switchToConfiguration
  cases dryRun <;> cases env.switchResult <;> simp

/-- A dryRun Deploy executes no gc-root write at all. -/
theorem deploy_dry_run_no_gc_events (env : Env)
    (hostname stateDir path operation : String) (fs : Fs) :
    (Deploy env hostname stateDir path operation true fs).2.2.all
      (fun ev => !ev.isGcRootStep) = true := by
  cases hmk : env.mkdirStateDirResult with
  | error e => simp [Deploy, hmk, Event.isGcRootStep]
  | ok u =>
    have ht1 := checkMachineId_trace env path hostname
    rcases hc : checkMachineId env path hostname with ⟨r1, t1⟩
    simp only [hc] at ht1
    cases r1 with
    | error e =>
      rcases ht1 with h | h <;> simp [Deploy, hmk, hc, h, Event.isGcRootStep]
    | ok u1 =>
      have ht2 := Build_trace env path hostname
      rcases hBu : Build env path hostname with ⟨r2, t2⟩
      simp only [hBu] at ht2
      match r2 with
      | none =>
        rcases ht1 with h | h <;> rcases ht2 with h2 | ⟨d, h2⟩ <;>
          simp [Deploy, hmk, hc, hBu, h, h2, Event.isGcRootStep]
      | some (.error e) =>
        rcases ht1 with h | h <;> rcases ht2 with h2 | ⟨d, h2⟩ <;>
          simp [Deploy, hmk, hc, hBu, h, h2, Event.isGcRootStep]
      | some (.ok outPath) =>
        cases hh1 : env.unitFileHash1 with
        | error e =>
          rcases ht1 with h | h <;> rcases ht2 with h2 | ⟨d, h2⟩ <;>
            simp [Deploy, hmk, hc, hBu, hh1, cominUnitFileHash, h, h2,
              Event.isGcRootStep]
        | ok hb =>
          cases hh2 : env.unitFileHash2 with
          | error e =>
            rcases ht1 with h | h <;> rcases ht2 with h2 | ⟨d, h2⟩ <;>
              simp [Deploy, hmk, hc, hBu, hh1, hh2, cominUnitFileHash,
                setSystemProfile_dryRun, switchToConfiguration_dryRun, h, h2,
                Event.isGcRootStep]
          | ok ha =>
            rcases ht1 with h | h <;> rcases ht2 with h2 | ⟨d, h2⟩ <;>
              simp [Deploy, hmk, hc, hBu, hh1, hh2, cominUnitFileHash,
                setSystemProfile_dryRun, switchToConfiguration_dryRun,
                createGcRoot_dryRun, h, h2, Event.isGcRootStep]

/-- C3: the gc-root record is written only on the success path: a dry run
never modifies the symlink state; a failed build leaves it unchanged; a
failed profile set or activation leaves it unchanged; any gc-root write in
the trace implies every earlier pipeline step succeeded in a non-dry run;
and a successful non-dry run leaves the host's gc-root symlink pointing at
the output path of that run's build. -/
theorem deploy_gcroot_invariant (env : Env)
    (hostname stateDir path operation : String) (dryRun : Bool) (fs : Fs) :
    (dryRun = true →
      (Deploy env hostname stateDir path operation dryRun fs).2.1 = fs) ∧
    ((∀ o, (Build env path hostname).1 ≠ some (.ok o)) →
      (Deploy env hostname stateDir path operation dryRun fs).2.1 = fs) ∧
    ((∃ e, env.switchResult = .error e) → dryRun = false →
      (Deploy env hostname stateDir path operation dryRun fs).2.1 = fs) ∧
    ((∃ e, env.nixEnvResult = .error e) → dryRun = false →
      (operation = "switch" ∨ operation = "boot") →
      (Deploy env hostname stateDir path operation dryRun fs).2.1 = fs) ∧
    ((∃ ev ∈ (Deploy env hostname stateDir path operation dryRun fs).2.2,
        ev.isGcRootStep = true) →
      dryRun = false ∧ env.mkdirStateDirResult = .ok () ∧
      (checkMachineId env path hostname).1 = .ok () ∧
      (∃ o, (Build env path hostname).1 = some (.ok o) ∧
        (setSystemProfile env operation o false).1 = .ok () ∧
        (switchToConfiguration env operation o false).1 = .ok ()) ∧
      (∃ h1, env.unitFileHash1 = .ok h1) ∧
      (∃ h2, env.unitFileHash2 = .ok h2)) ∧
    (dryRun = false →
      ∀ b, (Deploy env hostname stateDir path operation dryRun fs).1 =
        some (.ok b) →
      ∃ o, (Build env path hostname).1 = some (.ok o) ∧
        ((Deploy env hostname stateDir path operation dryRun fs).2.1).lookup
          (gcRootPath stateDir hostname) = some o) := by
  refine ⟨?_, ?_, ?_, ?_, ?_, ?_⟩
  · -- dry run never touches the symlink state
    intro hd
    subst hd
    cases hmk : env.mkdirStateDirResult with
    | error e => simp [Deploy, hmk]
    | ok u =>
      rcases hc : checkMachineId env path hostname with ⟨r1, t1⟩
      cases r1 with
      | error e => simp [Deploy, hmk, hc]
      | ok u1 =>
        rcases hBu : Build env path hostname with ⟨r2, t2⟩
        match r2 with
        | none => simp [Deploy, hmk, hc, hBu]
        | some (.error e) => simp [Deploy, hmk, hc, hBu]
        | some (.ok o) =>
          cases hh1 : env.unitFileHash1 with
          | error e => simp [Deploy, hmk, hc, hBu, hh1, cominUnitFileHash]
          | ok hb =>
            cases hh2 : env.unitFileHash2 with
            | error e =>
              simp [Deploy, hmk, hc, hBu, hh1, hh2, cominUnitFileHash,
                setSystemProfile_dryRun, switchToConfiguration_dryRun]
            | ok ha =>
              simp [Deploy, hmk, hc, hBu, hh1, hh2, cominUnitFileHash,
                setSystemProfile_dryRun, switchToConfiguration_dryRun,
                createGcRoot_dryRun]
  · -- failed build: symlink state unchanged
    intro hnb
    cases hmk : env.mkdirStateDirResult with
    | error e => simp [Deploy, hmk]
    | ok u =>
      rcases hc : checkMachineId env path hostname with ⟨r1, t1⟩
      cases r1 with
      | error e => simp [Deploy, hmk, hc]
      | ok u1 =>
        rcases hBu : Build env path hostname with ⟨r2, t2⟩
        match r2 with
        | none => simp [Deploy, hmk, hc, hBu]
        | some (.error e) => simp [Deploy, hmk, hc, hBu]
        | some (.ok o) => exact absurd (by simp [hBu]) (hnb o)
  · -- failed activation entry point: symlink state unchanged
    rintro ⟨e, hswe⟩ hd
    subst hd
    cases hmk : env.mkdirStateDirResult with
    | error e2 => simp [Deploy, hmk]
    | ok u =>
      rcases hc : checkMachineId env path hostname with ⟨r1, t1⟩
      cases r1 with
      | error e2 => simp [Deploy, hmk, hc]
      | ok u1 =>
        rcases hBu : Build env path hostname with ⟨r2, t2⟩
        match r2 with
        | none => simp [Deploy, hmk, hc, hBu]
        | some (.error e2) => simp [Deploy, hmk, hc, hBu]
        | some (.ok o) =>
          cases hh1 : env.unitFileHash1 with
          | error e2 => simp [Deploy, hmk, hc, hBu, hh1, cominUnitFileHash]
          | ok hb =>
            rcases hsp : setSystemProfile env operation o false with ⟨rs, ts⟩
            cases rs with
            | error e2 =>
              simp [Deploy, hmk, hc, hBu, hh1, cominUnitFileHash, hsp]
            | ok u2 =>
              simp [Deploy, hmk, hc, hBu, hh1, cominUnitFileHash, hsp,
                switchToConfiguration, hswe]
  · -- failed profile set on a switch/boot operation: symlink state unchanged
    rintro ⟨e, hne⟩ hd hop
    subst hd
    cases hmk : env.mkdirStateDirResult with
    | error e2 => simp [Deploy, hmk]
    | ok u =>
      rcases hc : checkMachineId env path hostname with ⟨r1, t1⟩
      cases r1 with
      | error e2 => simp [Deploy, hmk, hc]
      | ok u1 =>
        rcases hBu : Build env path hostname with ⟨r2, t2⟩
        match r2 with
        | none => simp [Deploy, hmk, hc, hBu]
        | some (.error e2) => simp [Deploy, hmk, hc, hBu]
        | some (.ok o) =>
          cases hh1 : env.unitFileHash1 with
          | error e2 => simp [Deploy, hmk, hc, hBu, hh1, cominUnitFileHash]
          | ok hb =>
            rcases hop with h | h <;> subst h <;>
              simp [Deploy, hmk, hc, hBu, hh1, cominUnitFileHash,
                setSystemProfile, hne]
  · -- a gc-root write implies every earlier step succeeded, non-dry
    intro hex
    cases dryRun with
    | true =>
      exfalso
      obtain ⟨ev, hmem, hgc⟩ := hex
      have hall := deploy_dry_run_no_gc_events env hostname stateDir path
        operation fs
      rw [List.all_eq_true] at hall
      have := hall ev hmem
      rw [hgc] at this
      simp at this
    | false =>
      have ht1 := checkMachineId_trace env path hostname
      have ht2 := Build_trace env path hostname
      cases hmk : env.mkdirStateDirResult with
      | error e =>
        exfalso
        simp [Deploy, hmk, Event.isGcRootStep] at hex
      | ok u =>
        rcases hc : checkMachineId env path hostname with ⟨r1, t1⟩
        simp only [hc] at ht1
        cases r1 with
        | error e =>
          exfalso
          rcases ht1 with h | h <;>
            simp [Deploy, hmk, hc, h, Event.isGcRootStep] at hex
        | ok u1 =>
          rcases hBu : Build env path hostname with ⟨r2, t2⟩
          simp only [hBu] at ht2
          match r2 with
          | none =>
            exfalso
            rcases ht1 with h | h <;> rcases ht2 with h2 | ⟨d, h2⟩ <;>
              simp [Deploy, hmk, hc, hBu, h, h2, Event.isGcRootStep] at hex
          | some (.error e) =>
            exfalso
            rcases ht1 with h | h <;> rcases ht2 with h2 | ⟨d, h2⟩ <;>
              simp [Deploy, hmk, hc, hBu, h, h2, Event.isGcRootStep] at hex
          | some (.ok o) =>
            cases hh1 : env.unitFileHash1 with
            | error e =>
              exfalso
              rcases ht1 with h | h <;> rcases ht2 with h2 | ⟨d, h2⟩ <;>
                simp [Deploy, hmk, hc, hBu, hh1, cominUnitFileHash, h, h2,
                  Event.isGcRootStep] at hex
            | ok hb =>
              have hts := setSystemProfile_trace env operation o false
              rcases hsp : setSystemProfile env operation o false with ⟨rs, ts⟩
              simp only [hsp] at hts
              cases rs with
              | error e =>
                exfalso
                rcases ht1 with h | h <;> rcases ht2 with h2 | ⟨d, h2⟩ <;>
                  rcases hts with h3 | h3 <;>
                    simp [Deploy, hmk, hc, hBu, hh1, cominUnitFileHash, hsp,
                      h, h2, h3, Event.isGcRootStep] at hex
              | ok u2 =>
                have htw := switchToConfiguration_trace env operation o false
                rcases hsw : switchToConfiguration env operation o false with
                  ⟨rw2, tw⟩
                simp only [hsw] at htw
                cases rw2 with
                | error e =>
                  exfalso
                  rcases ht1 with h | h <;> rcases ht2 with h2 | ⟨d, h2⟩ <;>
                    rcases hts with h3 | h3 <;> rcases htw with h4 | h4 <;>
                      simp [Deploy, hmk, hc, hBu, hh1, cominUnitFileHash, hsp,
                        hsw, h, h2, h3, h4, Event.isGcRootStep] at hex
                | ok u3 =>
                  cases hh2 : env.unitFileHash2 with
                  | error e =>
                    exfalso
                    rcases ht1 with h | h <;> rcases ht2 with h2 | ⟨d, h2⟩ <;>
                      rcases hts with h3 | h3 <;> rcases htw with h4 | h4 <;>
                        simp [Deploy, hmk, hc, hBu, hh1, hh2, cominUnitFileHash,
                          hsp, hsw, h, h2, h3, h4, Event.isGcRootStep] at hex
                  | ok ha =>
                    exact ⟨rfl, rfl, rfl, ⟨o, rfl, by simp [hsp], by simp [hsw]⟩,
                      ⟨hb, rfl⟩, ⟨ha, rfl⟩⟩
  · -- success records the symlink to the built output path
    intro hd b hDb
    subst hd
    cases hmk : env.mkdirStateDirResult with
    | error e => simp [Deploy, hmk] at hDb
    | ok u =>
      rcases hc : checkMachineId env path hostname with ⟨r1, t1⟩
      cases r1 with
      | error e => simp [Deploy, hmk, hc] at hDb
      | ok u1 =>
        rcases hBu : Build env path hostname with ⟨r2, t2⟩
        match r2 with
        | none => simp [Deploy, hmk, hc, hBu] at hDb
        | some (.error e) => simp [Deploy, hmk, hc, hBu] at hDb
        | some (.ok o) =>
          cases hh1 : env.unitFileHash1 with
          | error e => simp [Deploy, hmk, hc, hBu, hh1, cominUnitFileHash] at hDb
          | ok hb =>
            rcases hsp : setSystemProfile env operation o false with ⟨rs, ts⟩
            cases rs with
            | error e =>
              simp [Deploy, hmk, hc, hBu, hh1, cominUnitFileHash, hsp] at hDb
            | ok u2 =>
              rcases hsw : switchToConfiguration env operation o false with
                ⟨rw2, tw⟩
              cases rw2 with
              | error e =>
                simp [Deploy, hmk, hc, hBu, hh1, cominUnitFileHash, hsp,
                  hsw] at hDb
              | ok u3 =>
                cases hh2 : env.unitFileHash2 with
                | error e =>
                  simp [Deploy, hmk, hc, hBu, hh1, hh2, cominUnitFileHash, hsp,
                    hsw] at hDb
                | ok ha =>
                  rcases hg : createGcRoot env stateDir hostname o false fs with
                    ⟨rg, fsg, tg⟩
                  cases rg with
                  | error e =>
                    simp [Deploy, hmk, hc, hBu, hh1, hh2, cominUnitFileHash,
                      hsp, hsw, hg] at hDb
                  | ok u4 =>
                    obtain ⟨hfs, -⟩ := createGcRoot_ok_shape env stateDir
                      hostname o fs fsg u4 tg hg
                    refine ⟨o, rfl, ?_⟩
                    simp [Deploy, hmk, hc, hBu, hh1, hh2, cominUnitFileHash,
                      hsp, hsw, hg, hfs, List.lookup]

/-- Environment whose switch-to-configuration invocation fails. -/
def envSwitchFail : Env := { envOk with switchResult := .error "boom" }

/-- Witness for C3: dry run and failed build/activation leave the (empty)
symlink state unchanged; a successful run records the built output path. -/
theorem deploy_gcroot_invariant_witness :
    (Deploy envOk "web1" "/var/lib/comin" "." "switch" true []).2.1 = [] ∧
    (Deploy envEmptyDrv "web1" "/var/lib/comin" "." "switch" false []).2.1 = [] ∧
    (Deploy envSwitchFail "web1" "/var/lib/comin" "." "switch" false []).2.1 = [] ∧
    (∃ o, (Build envOk "." "web1").1 = some (.ok o) ∧
      ((Deploy envOk "web1" "/var/lib/comin" "." "switch" false []).2.1).lookup
        (gcRootPath "/var/lib/comin" "web1") = some o) :=
  ⟨(deploy_gcroot_invariant envOk "web1" "/var/lib/comin" "." "switch"
      true []).1 rfl,
   (deploy_gcroot_invariant envEmptyDrv "web1" "/var/lib/comin" "." "switch"
      false []).2.1 (fun o h => Option.noConfusion h),
   (deploy_gcroot_invariant envSwitchFail "web1" "/var/lib/comin" "." "switch"
      false []).2.2.1 ⟨"boom", rfl⟩ rfl,
   (deploy_gcroot_invariant envOk "web1" "/var/lib/comin" "." "switch"
      false []).2.2.2.2.2 rfl false rfl⟩

end Comin
